import Mathlib

/-
Verification development for the ESPA format-conversion library
(convert_lpgs_to_espa.c and convert_espa_to_gtif.c), as a shallow
embedding in Lean.  C strings are modelled as Lean String, C float/double
values as rationals, fallible paths as Except/Option.
-/

/-! ## Numeric token scanning (models sscanf "%d" / "%f" on MTL value tokens,
restricted to the fixed-point decimal notation found in MTL files). -/

def digitVal (c : Char) : Nat := c.toNat - 48

def takeDigits : List Char → List Char × List Char
  | [] => ([], [])
  | c :: cs =>
    if c.isDigit then
      let (ds, r) := takeDigits cs
      (c :: ds, r)
    else ([], c :: cs)

def digitsVal (ds : List Char) : Nat := ds.foldl (fun a c => a * 10 + digitVal c) 0

def scanSign : List Char → Int × List Char
  | '-' :: cs => (-1, cs)
  | '+' :: cs => (1, cs)
  | cs => (1, cs)

/-- Scan an optionally signed decimal integer from the head of a character
list, returning the value and the unconsumed rest (sscanf "%d" semantics:
fails when no digit is present, ignores trailing characters). -/
def scanInt (cs : List Char) : Option (Int × List Char) :=
  let (sgn, cs1) := scanSign cs
  let (ds, cs2) := takeDigits cs1
  if ds.isEmpty then none else some (sgn * (digitsVal ds : Int), cs2)

def scanIntTok (s : String) : Option Int := (scanInt s.data).map (·.1)

/-- Scan a fixed-point decimal number (sscanf "%f" semantics on the clean
numeric tokens appearing in MTL files). -/
def scanFloatTok (s : String) : Option ℚ :=
  let (sgn, cs1) := scanSign s.data
  let (ds, cs2) := takeDigits cs1
  match cs2 with
  | '.' :: cs3 =>
    let (fs, _) := takeDigits cs3
    if ds.isEmpty && fs.isEmpty then none
    else some ((sgn : ℚ) * ((digitsVal ds : ℚ) + (digitsVal fs : ℚ) / (10 : ℚ) ^ fs.length))
  | _ => if ds.isEmpty then none else some ((sgn : ℚ) * (digitsVal ds : ℚ))

/-! ## Band classification (read_lpgs_mtl, FILE_NAME records) -/

/-- The Espa_data_type enumeration. -/
inductive EspaDataType
  | int8 | uint8 | int16 | uint16 | int32 | uint32 | float32 | float64
deriving DecidableEq, Repr

/-- The band_information_t structure accumulated per band while reading the
MTL file.  Numeric fields are created zeroed (memset in the source). -/
structure BandInfo where
  id : String := ""
  fname : String := ""
  category : String := ""
  band_num : String := ""
  data_type : Option EspaDataType := none
  thermal : Bool := false
  min : ℚ := 0
  max : ℚ := 0
  gain : ℚ := 0
  bias : ℚ := 0
  refl_gain : ℚ := 0
  refl_bias : ℚ := 0
  k1 : ℚ := 0
  k2 : ℚ := 0
deriving DecidableEq, Repr

instance : Inhabited BandInfo := ⟨{}⟩

/-- Match a literal character-list at the head of a character list. -/
def stripLit : List Char → List Char → Option (List Char)
  | [], cs => some cs
  | _ :: _, [] => none
  | p :: ps, c :: cs => if p = c then stripLit ps cs else none

/-- Byte-wise prefix test (strncmp(s, p, strlen(p)) == 0 in the source). -/
def strStarts (p s : String) : Bool := (stripLit p.data s.data).isSome

/-- Model of sscanf(id, "BAND_%d_VCID_%d", &bnum, &vcid) with vcid
initialized to 0: returns (bnum, vcid) when at least the band number
matched, and vcid stays 0 when the _VCID_ suffix is absent. -/
def scanBandId (id : String) : Option (Int × Int) :=
  match stripLit "BAND_".data id.data with
  | none => none
  | some rest =>
    match scanInt rest with
    | none => none
    | some (bnum, rest2) =>
      match stripLit "_VCID_".data rest2 with
      | none => some (bnum, 0)
      | some rest3 =>
        match scanInt rest3 with
        | none => some (bnum, 0)
        | some (vcid, _) => some (bnum, vcid)

/-- The FILE_NAME record classification in read_lpgs_mtl: given the
instrument read so far, the band identifier (the label after
"FILE_NAME_") and the file-name value, build the band entry; `none`
models the "file type not of interest" fall-through (band counter not
incremented). -/
def classifyFileName (instrument id fname : String) : Option BandInfo :=
  match scanBandId id with
  | some (bnum, vcid) =>
    some { id := id, fname := fname, category := "image",
           band_num := if vcid = 0 then toString bnum
                       else toString bnum ++ toString vcid,
           thermal := ((bnum == 6) && (instrument == "TM" || !(vcid == 0)))
                      || decide (bnum > 9) }
  | none =>
    if id = "QUALITY_L1_PIXEL" then
      some { id := id, fname := fname, category := "qa", band_num := "bqa_pixel" }
    else if id = "QUALITY_L1_RADIOMETRIC_SATURATION" then
      some { id := id, fname := fname, category := "qa", band_num := "bqa_radsat" }
    else if id = "ANGLE_SENSOR_AZIMUTH_BAND_4" then
      some { id := id, fname := fname, category := "image",
             band_num := "sensor_azimuth_band4" }
    else if id = "ANGLE_SENSOR_ZENITH_BAND_4" then
      some { id := id, fname := fname, category := "image",
             band_num := "sensor_zenith_band4" }
    else if id = "ANGLE_SOLAR_AZIMUTH_BAND_4" then
      some { id := id, fname := fname, category := "image",
             band_num := "solar_azimuth_band4" }
    else if id = "ANGLE_SOLAR_ZENITH_BAND_4" then
      some { id := id, fname := fname, category := "image",
             band_num := "solar_zenith_band4" }
    else none

/-! ## Quality-band bit-flag tables (read_lpgs_mtl band finalization) -/

/-- Legacy "bqa" 16-bit table (bits 1, 11, 12 vary between OLI and
TM/ETM+ instruments). -/
def legacyQaDescriptions (instrument : String) : List String :=
  ["Data Fill Flag (0 = valid data, 1 = invalid data)"]
  ++ (if strStarts "OLI" instrument then
        ["Terrain Occlusion (0 = not terrain occluded, 1 = terrain occluded)"]
      else
        ["Dropped Pixel (0 = not a dropped pixel , 1 = dropped pixel)"])
  ++ ["Radiometric Saturation", "Radiometric Saturation", "Cloud",
      "Cloud Confidence", "Cloud Confidence",
      "Cloud Shadow Confidence", "Cloud Shadow Confidence",
      "Snow/Ice Confidence", "Snow/Ice Confidence"]
  ++ (if strStarts "OLI" instrument then
        ["Cirrus Confidence", "Cirrus Confidence"]
      else ["Not used", "Not used"])
  ++ ["Not used", "Not used", "Not used"]

/-- Pixel-QA "bqa_pixel" 16-bit table (bits 14-15 vary between OLI and
TM/ETM+ instruments). -/
def pixelQaDescriptions (instrument : String) : List String :=
  ["Data Fill Flag (0 = valid data, 1 = invalid data)",
   "Dilated Cloud", "Cirrus", "Cloud", "Cloud Shadow", "Snow", "Clear",
   "Water", "Cloud Confidence", "Cloud Confidence",
   "Cloud Shadow Confidence", "Cloud Shadow Confidence",
   "Snow/Ice Confidence", "Snow/Ice Confidence"]
  ++ (if strStarts "OLI" instrument then
        ["Cirrus Confidence", "Cirrus Confidence"]
      else ["Not used", "Not used"])

/-- Radiometric-saturation "bqa_radsat" 16-bit table: bits 0-7 are
"Band i Saturation" via a loop, bits 8-11 vary between OLI and TM/ETM+,
bits 12-15 are "Not used". -/
def radsatQaDescriptions (instrument : String) : List String :=
  (List.range 8).map (fun bit => "Band " ++ toString (bit + 1) ++ " Saturation")
  ++ (if strStarts "OLI" instrument then
        ["Band 9 Saturation", "Band 10 Saturation", "Band 11 Saturation",
         "Terrain Occlusion"]
      else
        ["Band 6H Saturation", "Dropped Pixel", "Not used", "Not used"])
  ++ (List.range 4).map (fun _ => "Not used")

/-- Bit-flag table attachment in the band-finalization loop: a 16-entry
bitmap is allocated for every band whose band_num starts with "bqa" and
filled according to the exact band_num; other bands attach no bitmap.
A "bqa"-family name outside the three known ones keeps the freshly
allocated (empty) 16 entries. -/
def bandBitmap (instrument band_num : String) : Option (List String) :=
  if strStarts "bqa" band_num then
    if band_num = "bqa" then some (legacyQaDescriptions instrument)
    else if band_num = "bqa_pixel" then some (pixelQaDescriptions instrument)
    else if band_num = "bqa_radsat" then some (radsatQaDescriptions instrument)
    else some (List.replicate 16 "")
  else none

/-! ## Per-band field merging (get_band_info and the field-record groups) -/

/-- get_band_info: scan the band_info array from slot 0, stopping at the
first empty identifier (the C loop runs while the slot id is non-empty).
The list models the written prefix of the array; entries past it are
zeroed.  Because the FILE_NAME handler writes the identifier into the
scratch slot before classifying, the scan can also find the stale
identifier left by the most recent skipped FILE_NAME record. -/
def get_band_info : List BandInfo → String → Option BandInfo
  | [], _ => none
  | b :: rest, id =>
    if b.id = "" then none
    else if b.id = id then some b
    else get_band_info rest id

/-- A band-specific field record parsed from one of the MTL field groups
(DATA_TYPE, QUANTIZE_CAL min/max, radiance and reflectance gain/bias,
K1/K2 thermal constants). -/
inductive FieldKind
  | dataType (t : EspaDataType)
  | quantMin (v : Int)
  | quantMax (v : Int)
  | radGain (v : ℚ)
  | radBias (v : ℚ)
  | reflGain (v : ℚ)
  | reflBias (v : ℚ)
  | kOne (v : ℚ)
  | kTwo (v : ℚ)
deriving DecidableEq, Repr

/-- Which slot of the band entry a field record writes. -/
def fieldSlot : FieldKind → Nat
  | .dataType _ => 0
  | .quantMin _ => 1
  | .quantMax _ => 2
  | .radGain _ => 3
  | .radBias _ => 4
  | .reflGain _ => 5
  | .reflBias _ => 6
  | .kOne _ => 7
  | .kTwo _ => 8

/-- Merge one field value into a band entry (QUANTIZE_CAL values are read
as int and cast to float in the source). -/
def applyField (b : BandInfo) : FieldKind → BandInfo
  | .dataType t => { b with data_type := some t }
  | .quantMin v => { b with min := (v : ℚ) }
  | .quantMax v => { b with max := (v : ℚ) }
  | .radGain v => { b with gain := v }
  | .radBias v => { b with bias := v }
  | .reflGain v => { b with refl_gain := v }
  | .reflBias v => { b with refl_bias := v }
  | .kOne v => { b with k1 := v }
  | .kTwo v => { b with k2 := v }

/-- Update in place the band entry found by the get_band_info scan (the
source mutates the slot through the returned pointer), stopping at the
first empty identifier like the scan does. -/
def updateBand : List BandInfo → String → (BandInfo → BandInfo) → List BandInfo
  | [], _, _ => []
  | b :: rest, id, f =>
    if b.id = "" then b :: rest
    else if b.id = id then f b :: rest
    else b :: updateBand rest id f

/-- Write slot k of the band_info array through f, extending the modelled
written prefix with zeroed entries as needed (the C array is memset to
zero before the scan loop). -/
def setSlot : List BandInfo → Nat → (BandInfo → BandInfo) → List BandInfo
  | [], 0, f => [f {}]
  | [], k + 1, f => {} :: setSlot [] k f
  | b :: rest, 0, f => f b :: rest
  | b :: rest, k + 1, f => b :: setSlot rest k f

/-- Process one field record against the band catalog: a reference to an
identifier with no prior FILE_NAME creation record is a fatal not-found
error; otherwise the field is merged into the matching entry. -/
def processField (band_info : List BandInfo) (id : String) (f : FieldKind) :
    Except String (List BandInfo) :=
  match get_band_info band_info id with
  | none => .error ("Band info not found for ID " ++ id ++ ".")
  | some _ => .ok (updateBand band_info id (fun b => applyField b f))

/-! ## MTL record processing (read_lpgs_mtl main loop) -/

/-- Resampling methods accepted from RESAMPLING_OPTION. -/
inductive ResampleMethod
  | cc | nn | bi
deriving DecidableEq, Repr

/-- GCTP projection codes used by the library (gctp.h). -/
def GCTP_GEO_PROJ : Int := 0

def GCTP_UTM_PROJ : Int := 1

def GCTP_ALBERS_PROJ : Int := 3

def GCTP_PS_PROJ : Int := 6

/-- The ESPA datum enumeration value for WGS84 (espa_metadata.h). -/
def ESPA_WGS84 : Int := 12

/-- MAP_PROJECTION handling in read_lpgs_mtl: only UTM, PS, and AEA are
accepted. -/
def parseMapProjection (v : String) : Except String Int :=
  if v = "UTM" then .ok GCTP_UTM_PROJ
  else if v = "PS" then .ok GCTP_PS_PROJ
  else if v = "AEA" then .ok GCTP_ALBERS_PROJ
  else .error ("Unsupported projection type: " ++ v ++ ". Only UTM, PS, and "
               ++ "ALBERS EQUAL AREA are supported for LPGS.")

/-- DATUM handling in read_lpgs_mtl: only WGS84 is accepted. -/
def parseDatum (v : String) : Except String Int :=
  if v = "WGS84" then .ok ESPA_WGS84
  else .error ("Unexpected datum type: " ++ v)

/-- DATA_TYPE value parsing: the eight supported element types. -/
def parseDataTypeTok (v : String) : Option EspaDataType :=
  if v = "INT8" then some .int8
  else if v = "UINT8" then some .uint8
  else if v = "INT16" then some .int16
  else if v = "UINT16" then some .uint16
  else if v = "INT32" then some .int32
  else if v = "UINT32" then some .uint32
  else if v = "FLOAT32" then some .float32
  else if v = "FLOAT64" then some .float64
  else none

/-- One (group, label, value) record produced by the MTL tokenizer. -/
structure MtlRecord where
  group : String
  label : String
  value : String
deriving DecidableEq, Repr

/-- The state accumulated by read_lpgs_mtl while scanning MTL records:
the global metadata fields consulted by the claims, plus the band
catalog.  Fields the source merely copies through and that no claim
consults are omitted.  Option models not-yet-populated enum fields. -/
structure MtlState where
  satellite : String := ""
  instrument : String := ""
  acquisition_date : String := ""
  product_id : String := ""
  product : String := ""
  solar_zenith : ℚ := 0
  solar_azimuth : ℚ := 0
  earth_sun_dist : ℚ := 0
  proj_type : Option Int := none
  datum_type : Option Int := none
  resample : Option ResampleMethod := none
  ul_corner_geo : ℚ × ℚ := (0, 0)
  lr_corner_geo : ℚ × ℚ := (0, 0)
  proj_ul_corner : ℚ × ℚ := (0, 0)
  proj_lr_corner : ℚ × ℚ := (0, 0)
  band_info : List BandInfo := []
  band_count : Nat := 0
deriving DecidableEq, Repr

/-- Helper for the field-record groups: look up the band entry first (a
missing entry is fatal), then parse the value (an unreadable value is
fatal), then merge. -/
def processFieldRecord (s : MtlState) (id : String) (pf : Option FieldKind)
    (parseErr : String) : Except String MtlState :=
  match get_band_info s.band_info id with
  | none => .error ("Band info not found for ID " ++ id ++ ".")
  | some _ =>
    match pf with
    | none => .error parseErr
    | some f =>
      match processField s.band_info id f with
      | .error e => .error e
      | .ok cat => .ok { s with band_info := cat }

/-- A numeric store that the source performs without checking the sscanf
result: a parse failure leaves the field unspecified, modelled as
unchanged. -/
def storeQ (cur : ℚ) (v : String) : ℚ :=
  match scanFloatTok v with
  | some q => q
  | none => cur

/-- Process one MTL record, mirroring the group/label dispatch of the
read_lpgs_mtl main loop.  A FILE_NAME record writes its band identifier
into the scratch slot band_info[band_count] unconditionally before
classifying; a recognized type also fills the classification fields and
commits the slot by incrementing band_count, while a skipped type leaves
the stale identifier behind with band_count unchanged.  Unrecognized group/label combinations are
silently skipped.  Records for metadata fields outside the modelled
state (app version, dates, WRS, pixel sizes, projection parameters) are
also skips here since the state omits those fields. -/
def processRecord (s : MtlState) (r : MtlRecord) : Except String MtlState :=
  if r.group = "IMAGE_ATTRIBUTES" then
    if r.label = "SPACECRAFT_ID" then
      if r.value = "LANDSAT_9" ∨ r.value = "Landsat9" then
        .ok { s with satellite := "LANDSAT_9" }
      else if r.value = "LANDSAT_8" ∨ r.value = "Landsat8" then
        .ok { s with satellite := "LANDSAT_8" }
      else if r.value = "LANDSAT_7" ∨ r.value = "Landsat7" then
        .ok { s with satellite := "LANDSAT_7" }
      else if r.value = "LANDSAT_5" ∨ r.value = "Landsat5" then
        .ok { s with satellite := "LANDSAT_5" }
      else if r.value = "LANDSAT_4" ∨ r.value = "Landsat4" then
        .ok { s with satellite := "LANDSAT_4" }
      else .error ("Unsupported satellite type: " ++ r.value)
    else if r.label = "SENSOR_ID" then .ok { s with instrument := r.value }
    else if r.label = "DATE_ACQUIRED" then
      .ok { s with acquisition_date := r.value }
    else if r.label = "SUN_ELEVATION" then
      match scanFloatTok r.value with
      | some e => .ok { s with solar_zenith := 90 - e }
      | none => .ok s
    else if r.label = "SUN_AZIMUTH" then
      .ok { s with solar_azimuth := storeQ s.solar_azimuth r.value }
    else if r.label = "EARTH_SUN_DISTANCE" then
      .ok { s with earth_sun_dist := storeQ s.earth_sun_dist r.value }
    else .ok s
  else if r.group = "PROJECTION_ATTRIBUTES" then
    if r.label = "MAP_PROJECTION" then
      match parseMapProjection r.value with
      | .ok p => .ok { s with proj_type := some p }
      | .error e => .error e
    else if r.label = "DATUM" then
      match parseDatum r.value with
      | .ok d => .ok { s with datum_type := some d }
      | .error e => .error e
    else if r.label = "CORNER_UL_LAT_PRODUCT" then
      .ok { s with ul_corner_geo := (storeQ s.ul_corner_geo.1 r.value, s.ul_corner_geo.2) }
    else if r.label = "CORNER_UL_LON_PRODUCT" then
      .ok { s with ul_corner_geo := (s.ul_corner_geo.1, storeQ s.ul_corner_geo.2 r.value) }
    else if r.label = "CORNER_LR_LAT_PRODUCT" then
      .ok { s with lr_corner_geo := (storeQ s.lr_corner_geo.1 r.value, s.lr_corner_geo.2) }
    else if r.label = "CORNER_LR_LON_PRODUCT" then
      .ok { s with lr_corner_geo := (s.lr_corner_geo.1, storeQ s.lr_corner_geo.2 r.value) }
    else if r.label = "CORNER_UL_PROJECTION_X_PRODUCT" then
      .ok { s with proj_ul_corner := (storeQ s.proj_ul_corner.1 r.value, s.proj_ul_corner.2) }
    else if r.label = "CORNER_UL_PROJECTION_Y_PRODUCT" then
      .ok { s with proj_ul_corner := (s.proj_ul_corner.1, storeQ s.proj_ul_corner.2 r.value) }
    else if r.label = "CORNER_LR_PROJECTION_X_PRODUCT" then
      .ok { s with proj_lr_corner := (storeQ s.proj_lr_corner.1 r.value, s.proj_lr_corner.2) }
    else if r.label = "CORNER_LR_PROJECTION_Y_PRODUCT" then
      .ok { s with proj_lr_corner := (s.proj_lr_corner.1, storeQ s.proj_lr_corner.2 r.value) }
    else .ok s
  else if r.group = "LEVEL1_PROJECTION_PARAMETERS" then
    if r.label = "RESAMPLING_OPTION" then
      if r.value = "CUBIC_CONVOLUTION" then .ok { s with resample := some .cc }
      else if r.value = "NEAREST_NEIGHBOR" then .ok { s with resample := some .nn }
      else if r.value = "BILINEAR" then .ok { s with resample := some .bi }
      else .error ("Unsupported resampling option: " ++ r.value)
    else .ok s
  else if r.group = "PRODUCT_CONTENTS" then
    if strStarts "FILE_NAME" r.label then
      match classifyFileName s.instrument (r.label.drop 10) r.value with
      | some b =>
        .ok { s with
              band_info := setSlot s.band_info s.band_count (fun old =>
                { old with id := b.id, fname := b.fname, category := b.category,
                           band_num := b.band_num, thermal := b.thermal }),
              band_count := s.band_count + 1 }
      | none =>
        .ok { s with
              band_info := setSlot s.band_info s.band_count (fun old =>
                { old with id := r.label.drop 10 }) }
    else if strStarts "DATA_TYPE" r.label then
      processFieldRecord s (r.label.drop 10)
        ((parseDataTypeTok r.value).map .dataType)
        ("Unsupported data type " ++ r.value ++ ".")
    else if r.label = "LANDSAT_PRODUCT_ID" then
      .ok { s with product_id := r.value }
    else if r.label = "PROCESSING_LEVEL" then
      .ok { s with product := r.value }
    else .ok s
  else if r.group = "LEVEL1_MIN_MAX_PIXEL_VALUE" then
    if strStarts "QUANTIZE_CAL" r.label then
      processFieldRecord s (r.label.drop 17)
        ((scanIntTok r.value).map (fun v =>
          if (r.label.drop 13).take 3 = "MIN" then .quantMin v else .quantMax v))
        ("CAL MIN/MAX not readable from " ++ r.label ++ " = " ++ r.value ++ ".")
    else .ok s
  else if r.group = "LEVEL1_RADIOMETRIC_RESCALING" then
    if strStarts "RADIANCE_MULT" r.label then
      processFieldRecord s (r.label.drop 14)
        ((scanFloatTok r.value).map .radGain)
        ("RADIANCE_MULT not readable from " ++ r.label ++ " = " ++ r.value ++ ".")
    else if strStarts "RADIANCE_ADD" r.label then
      processFieldRecord s (r.label.drop 13)
        ((scanFloatTok r.value).map .radBias)
        ("RADIANCE_ADD not readable from " ++ r.label ++ " = " ++ r.value ++ ".")
    else if strStarts "REFLECTANCE_MULT" r.label then
      processFieldRecord s (r.label.drop 17)
        ((scanFloatTok r.value).map .reflGain)
        ("REFLECTANCE_MULT not readable from " ++ r.label ++ " = " ++ r.value ++ ".")
    else if strStarts "REFLECTANCE_ADD" r.label then
      processFieldRecord s (r.label.drop 16)
        ((scanFloatTok r.value).map .reflBias)
        ("REFLECTANCE_ADD not readable from " ++ r.label ++ " = " ++ r.value ++ ".")
    else .ok s
  else if r.group = "LEVEL1_TIRS_THERMAL_CONSTANTS"
          ∨ r.group = "LEVEL1_THERMAL_CONSTANTS" then
    if strStarts "K1_CONSTANT" r.label ∨ strStarts "K2_CONSTANT" r.label then
      processFieldRecord s (r.label.drop 12)
        ((scanFloatTok r.value).map (fun v =>
          if r.label.data.get? 1 = some '1' then .kOne v else .kTwo v))
        ("K1/2 constant not readable from " ++ r.label ++ " = " ++ r.value ++ ".")
    else .ok s
  else .ok s

/-- The satellite/instrument pairing validation performed after the MTL
scan loop. -/
def validateSensor (s : MtlState) : Except String MtlState :=
  if s.satellite = "LANDSAT_9" ∨ s.satellite = "LANDSAT_8" then
    if s.instrument ≠ "OLI_TIRS" ∧ s.instrument ≠ "OLI" ∧ s.instrument ≠ "TIRS" then
      .error ("Unsupported sensor type: " ++ s.instrument)
    else .ok s
  else if s.satellite = "LANDSAT_7" then
    if s.instrument ≠ "ETM" then
      .error ("Unsupported sensor type: " ++ s.instrument)
    else .ok s
  else if s.satellite = "LANDSAT_5" ∨ s.satellite = "LANDSAT_4" then
    if s.instrument ≠ "TM" then
      .error ("Unsupported sensor type: " ++ s.instrument)
    else .ok s
  else .error "SPACECRAFT_ID is required to validate SENSOR_ID"

/-- Run a list of MTL records from a starting state (the read_lpgs_mtl
main loop; an error in any record aborts the scan immediately). -/
def runMtlRecords (s : MtlState) (records : List MtlRecord) :
    Except String MtlState :=
  records.foldlM processRecord s

/-- read_lpgs_mtl at the record level: scan all records, then validate the
satellite/instrument pairing.  On any error, only an error value is
produced: no metadata state escapes. -/
def read_lpgs_mtl (records : List MtlRecord) : Except String MtlState :=
  match runMtlRecords {} records with
  | .error e => .error e
  | .ok s => validateSensor s

/-! ## ESPA to GeoTIFF conversion (convert_espa_to_gtif.c) -/

/-- The projection/datum validation of convert_file_using_library: the
projection code must be one of GEO, UTM, ALBERS, PS, and the datum must
be WGS84; anything else is a fatal error. -/
def gtifProjDatumCheck (proj_code datum_type : Int) : Except String Unit :=
  if proj_code ≠ GCTP_GEO_PROJ ∧ proj_code ≠ GCTP_UTM_PROJ
     ∧ proj_code ≠ GCTP_ALBERS_PROJ ∧ proj_code ≠ GCTP_PS_PROJ then
    .error ("Unsupported projection code: " ++ toString proj_code)
  else if datum_type = ESPA_WGS84 then .ok ()
  else .error ("Unsupported datum: " ++ toString datum_type)

/-- The four band corner slots written into the output GeoTIFF band
metadata. -/
structure L1gBandCorners where
  upper_left_x : ℚ
  upper_left_y : ℚ
  upper_right_x : ℚ
  upper_right_y : ℚ
  lower_left_x : ℚ
  lower_left_y : ℚ
  lower_right_x : ℚ
  lower_right_y : ℚ
deriving DecidableEq, Repr

/-- Band corner assignment of convert_file_using_library: built from only
the scene UL and LR projected corners of the metadata (the function
reads no other corner source). -/
def setBandCorners (ul_corner lr_corner : ℚ × ℚ) : L1gBandCorners :=
  { upper_left_x := ul_corner.1
    upper_left_y := ul_corner.2
    upper_right_x := lr_corner.1
    upper_right_y := ul_corner.2
    lower_left_x := ul_corner.1
    lower_left_y := lr_corner.2
    lower_right_x := lr_corner.1
    lower_right_y := lr_corner.2 }

/-- Space-to-underscore replacement at the character level. -/
def replaceSpacesL : List Char → List Char :=
  List.map (fun c => if c = ' ' then '_' else c)

/-- The strchr/assign loop of convert_espa_to_gtif: replace every blank
space in a string with an underscore. -/
def replaceSpaces (s : String) : String := ⟨replaceSpacesL s.data⟩

/-- Output GeoTIFF band file name: snprintf "%s_%s.TIF" of the base output
name and the band name, after which the replacement loop runs over the
whole assembled name. -/
def gtifBandName (gtif_file band_name : String) : String :=
  replaceSpaces (gtif_file ++ "_" ++ band_name ++ ".TIF")

/-- The spec's wording of the output naming rule (for comparison with
gtifBandName): base name, underscore, band name with its spaces replaced
by underscores, extension. -/
def gtifBandNameSpec (gtif_file band_name : String) : String :=
  gtif_file ++ "_" ++ replaceSpaces band_name ++ ".TIF"

/-- POSIX system() result as the source observes it: -1 on launch failure,
otherwise the child's termination status (a normal exit code appears
shifted into the high byte, so a non-zero exit yields a positive value,
never -1). -/
def systemReturn (launchFailed : Bool) (exitCode : Nat) : Int :=
  if launchFailed then -1 else 256 * (exitCode : Int)

/-- The fallback (non-WGS84) per-band conversion loop of
convert_espa_to_gtif, abstracted over the gdal_translate invocation
outcomes, one per band: the source aborts with an error exactly when
system() itself returns -1, and otherwise proceeds to the next band.
Returns the number of bands processed. -/
def fallbackLoop : List (Bool × Nat) → Except String Nat
  | [] => .ok 0
  | c :: rest =>
    if systemReturn c.1 c.2 = -1 then
      .error "Running gdal_translate"
    else
      match fallbackLoop rest with
      | .error e => .error e
      | .ok n => .ok (n + 1)

/-! ## Band-subset filtering (convert_lpgs_to_espa, sr_st_only) -/

/-- The fields of Espa_band_meta_t consulted by the filtering and
conversion pairing. -/
structure EspaBand where
  name : String := ""
  file_name : String := ""
deriving DecidableEq, Repr

instance : Inhabited EspaBand := ⟨{}⟩

/-- The fixed exclusion list of bands not used in SR/ST processing. -/
def excludeBands : List String :=
  ["b62", "b8", "b9",
   "sensor_azimuth_band4", "sensor_zenith_band4", "solar_azimuth_band4"]

/-- The inner exclusion scan: strcmp of each exclusion entry against the
band name. -/
def bandExcluded (exclude : List String) (b : EspaBand) : Bool :=
  exclude.any (fun e => e == b.name)

/-- memmove(&band[x], &band[x+1], cnt * sizeof) on the band array: shift
cnt elements down one slot; the array tail past the copied region keeps
its old (now stale) values. -/
def listMemmove (arr : List EspaBand) (x cnt : Nat) : List EspaBand :=
  arr.take x ++ (arr.drop (x + 1)).take cnt ++ arr.drop (x + cnt)

/-- Record the convert flag for position i in front of the flags computed
by the rest of the loop. -/
def consFlag (fl : Bool) (r : List EspaBand × Nat × List Bool) :
    List EspaBand × Nat × List Bool :=
  (r.1, r.2.1, fl :: r.2.2)

/-- The sr_st_only filtering loop of convert_lpgs_to_espa: i walks the
original band positions, x the compacted array; a matching band is
removed by the memmove compaction, x steps back, and the band count
drops by one; convert_lpgs_bands[i] records whether position i is kept.
Returns the final array contents, the final band count, and the
per-original-position keep flags. -/
def srFilterGo (exclude : List String) (n : Nat) (i x : Nat)
    (arr : List EspaBand) (nbands : Nat) : List EspaBand × Nat × List Bool :=
  if _h : i < n then
    if bandExcluded exclude (arr.getD x default) then
      consFlag false (srFilterGo exclude n (i + 1) x
        (if i < n - 1 then listMemmove arr x (n - i - 1) else arr) (nbands - 1))
    else
      consFlag true (srFilterGo exclude n (i + 1) (x + 1) arr nbands)
  else (arr, nbands, [])
termination_by n - i

/-- Run the filtering loop over a band array as convert_lpgs_to_espa
starts it: i = x = 0, nbands and the loop bound both the LPGS band
count. -/
def srFilter (exclude : List String) (bands : List EspaBand) :
    List EspaBand × Nat × List Bool :=
  srFilterGo exclude bands.length 0 0 bands bands.length

/-- The conversion loop pairing of convert_lpgs_to_espa: i walks the keep
flags and the (unfiltered) LPGS source-file list, x walks the compacted
band array only when a band was kept; each converted band is the pair of
its LPGS source file and its compacted metadata entry. -/
def conversionPairs : List Bool → List String → List EspaBand →
    List (String × EspaBand)
  | true :: fs, l :: ls, b :: bs => (l, b) :: conversionPairs fs ls bs
  | false :: fs, _ :: ls, bs => conversionPairs fs ls bs
  | _, _, _ => []

/-! ## Shared list helpers -/

theorem takeAppend {α : Type*} (A B : List α) : (A ++ B).take A.length = A := by
  induction A with
  | nil => simp
  | cons a A ih => simp [ih]

theorem dropAppendPlus {α : Type*} (A B : List α) (k : Nat) :
    (A ++ B).drop (A.length + k) = B.drop k := by
  induction A with
  | nil => simp
  | cons a A ih => simp [Nat.succ_add, ih]

theorem getDAppendLen {α : Type*} (A : List α) (b : α) (B : List α) (d : α) :
    (A ++ b :: B).getD A.length d = b := by
  induction A with
  | nil => simp
  | cons a A ih => simpa using ih

/-! ## Claim theorems -/

/-- Claim C10: the global solar zenith angle is not read from the metadata
text; for every parsed SUN_ELEVATION value e the stored solar zenith is
90 - e, while SUN_AZIMUTH is stored as parsed (and no other state field
changes in either case). -/
theorem c10_solar_zenith_derived (s : MtlState) (v : String) (e : ℚ)
    (h : scanFloatTok v = some e) :
    processRecord s ⟨"IMAGE_ATTRIBUTES", "SUN_ELEVATION", v⟩
      = .ok { s with solar_zenith := 90 - e } ∧
    processRecord s ⟨"IMAGE_ATTRIBUTES", "SUN_AZIMUTH", v⟩
      = .ok { s with solar_azimuth := e } := by
  constructor
  · simp [processRecord, h]
  · simp [processRecord, storeQ, h]

/-- Claim C10 witness: SUN_ELEVATION 41.5 gives solar zenith 48.5 and
SUN_AZIMUTH 41.5 is stored as is. -/
theorem c10_solar_zenith_derived_witness :
    scanFloatTok "41.5" = some (83 / 2 : ℚ) ∧
    (processRecord {} ⟨"IMAGE_ATTRIBUTES", "SUN_ELEVATION", "41.5"⟩
       = .ok { ({} : MtlState) with solar_zenith := 90 - (83 / 2 : ℚ) } ∧
     processRecord {} ⟨"IMAGE_ATTRIBUTES", "SUN_AZIMUTH", "41.5"⟩
       = .ok { ({} : MtlState) with solar_azimuth := (83 / 2 : ℚ) }) :=
  ⟨by simp [scanFloatTok, scanSign, takeDigits, digitsVal, digitVal]; norm_num,
   c10_solar_zenith_derived {} "41.5" (83 / 2)
     (by simp [scanFloatTok, scanSign, takeDigits, digitsVal, digitVal]; norm_num)⟩

/-- Claim C4: the output band corner metadata is built from only the scene
UL and LR projected corners: UL and LR are copied through unchanged, UR
is (LR.x, UL.y) and LL is (UL.x, LR.y); the independently parsed
CORNER_UR/CORNER_LL products of the MTL never reach the metadata (those
records leave the state unchanged). -/
theorem c4_corner_recombination :
    (∀ ul lr : ℚ × ℚ,
      (setBandCorners ul lr).upper_left_x = ul.1 ∧
      (setBandCorners ul lr).upper_left_y = ul.2 ∧
      (setBandCorners ul lr).lower_right_x = lr.1 ∧
      (setBandCorners ul lr).lower_right_y = lr.2 ∧
      (setBandCorners ul lr).upper_right_x = lr.1 ∧
      (setBandCorners ul lr).upper_right_y = ul.2 ∧
      (setBandCorners ul lr).lower_left_x = ul.1 ∧
      (setBandCorners ul lr).lower_left_y = lr.2) ∧
    (∀ (s : MtlState) (v : String),
      processRecord s ⟨"PROJECTION_ATTRIBUTES", "CORNER_UR_LAT_PRODUCT", v⟩ = .ok s ∧
      processRecord s ⟨"PROJECTION_ATTRIBUTES", "CORNER_UR_LON_PRODUCT", v⟩ = .ok s ∧
      processRecord s ⟨"PROJECTION_ATTRIBUTES", "CORNER_LL_LAT_PRODUCT", v⟩ = .ok s ∧
      processRecord s ⟨"PROJECTION_ATTRIBUTES", "CORNER_LL_LON_PRODUCT", v⟩ = .ok s) :=
  ⟨fun _ _ => ⟨rfl, rfl, rfl, rfl, rfl, rfl, rfl, rfl⟩,
   fun _ _ => ⟨rfl, rfl, rfl, rfl⟩⟩

/-- Claim C7 counterexample: gdal_translate exiting with non-zero status
(system() returns 256 for exit code 1) is not treated as fatal; the
fallback loop converts both bands instead of aborting on the first. -/
theorem c7_nonzero_exit_not_fatal :
    systemReturn false 1 = 256 ∧
    fallbackLoop [(false, 1), (false, 0)] = .ok 2 := ⟨rfl, rfl⟩

/-- Claim C7 (amended): on the fallback path, only a launch failure of the
external utility (system() returning -1) is fatal; a non-zero exit
status of gdal_translate is not detected and conversion continues with
the remaining bands, so the loop errors exactly when some invocation
fails to launch. -/
theorem c7_fallback_fatal_iff_launch_failure (cmds : List (Bool × Nat)) :
    (∃ e, fallbackLoop cmds = .error e) ↔ (∃ c ∈ cmds, c.1 = true) := by
  induction cmds with
  | nil => simp [fallbackLoop]
  | cons c rest ih =>
    rcases c with ⟨l, code⟩
    cases l
    · have hne : ¬ systemReturn false code = -1 := by simp [systemReturn]; omega
      rw [show (∃ x ∈ (false, code) :: rest, x.1 = true)
            ↔ (∃ x ∈ rest, x.1 = true) by simp]
      rw [← ih]
      simp only [fallbackLoop, if_neg hne]
      rcases h2 : fallbackLoop rest with e2 | n2 <;> simp [h2]
    · constructor
      · intro _
        exact ⟨(true, code), by simp, rfl⟩
      · intro _
        refine ⟨"Running gdal_translate", ?_⟩
        simp [fallbackLoop, systemReturn]

/-- Claim C9 counterexample: when the base output name itself contains a
space, the source replaces that space too, so the produced name is not
the base name unchanged followed by the underscore, the
space-sanitized band name and the extension. -/
theorem c9_space_in_base_counterexample :
    gtifBandName "a b" "x" = "a_b_x.TIF" ∧
    gtifBandNameSpec "a b" "x" = "a b_x.TIF" ∧
    gtifBandName "a b" "x" ≠ gtifBandNameSpec "a b" "x" := by
  refine ⟨rfl, rfl, by decide⟩

/-- Claim C9 (amended): the output GeoTIFF name is the snprintf
"%s_%s.TIF" assembly with every space of the whole assembled name
(including any in the base output name) replaced by an underscore;
whenever the base name contains no space this equals exactly the base
name, an underscore, the band name with its spaces replaced, and the
.TIF extension. -/
theorem c9_output_name (base name : String) (h : ' ' ∉ base.data) :
    gtifBandName base name = replaceSpaces (base ++ "_" ++ name ++ ".TIF") ∧
    gtifBandName base name = gtifBandNameSpec base name := by
  refine ⟨rfl, ?_⟩
  have hdata : ∀ s t : String, (s ++ t).data = s.data ++ t.data := by
    intro s t; cases s; cases t; rfl
  have hid : ∀ cs : List Char, ' ' ∉ cs →
      List.map (fun c => if c = ' ' then '_' else c) cs = cs := by
    intro cs
    induction cs with
    | nil => intro _; rfl
    | cons c cs ih =>
      intro hcs
      simp only [List.mem_cons, not_or] at hcs
      rw [List.map_cons, if_neg (Ne.symm hcs.1), ih hcs.2]
  apply String.ext
  show replaceSpacesL ((base ++ "_" ++ name ++ ".TIF").data)
      = (base ++ "_" ++ replaceSpaces name ++ ".TIF").data
  rw [hdata, hdata, hdata, hdata, hdata, hdata]
  show replaceSpacesL (base.data ++ "_".data ++ name.data ++ ".TIF".data)
      = base.data ++ "_".data ++ replaceSpacesL name.data ++ ".TIF".data
  simp only [replaceSpacesL, List.map_append]
  rw [show List.map (fun c => if c = ' ' then '_' else c) base.data = base.data from hid base.data h]
  rfl

/-- Claim C9 witness: with a space-free base name the produced name equals
the spec form, spaces in the band name replaced by underscores. -/
theorem c9_output_name_witness :
    ' ' ∉ "out".data ∧
    (gtifBandName "out" "a b" = replaceSpaces ("out" ++ "_" ++ "a b" ++ ".TIF") ∧
     gtifBandName "out" "a b" = gtifBandNameSpec "out" "a b") :=
  ⟨by decide, c9_output_name "out" "a b" (by decide)⟩

/-- Claim C3 counterexample: the MTL reader's projection validation
rejects a Geographic projection token (any MAP_PROJECTION other than
UTM, PS, AEA), so a Geographic-projection scene is not accepted by every
projection/datum validation of the program. -/
theorem c3_geographic_rejected_counterexample :
    parseMapProjection "GEOGRAPHIC"
      = .error ("Unsupported projection type: GEOGRAPHIC. Only UTM, PS, and "
                ++ "ALBERS EQUAL AREA are supported for LPGS.") ∧
    read_lpgs_mtl [⟨"PROJECTION_ATTRIBUTES", "MAP_PROJECTION", "GEOGRAPHIC"⟩]
      = .error ("Unsupported projection type: GEOGRAPHIC. Only UTM, PS, and "
                ++ "ALBERS EQUAL AREA are supported for LPGS.") :=
  ⟨rfl, rfl⟩

/-- Claim C3 (amended): the raw-binary-to-GeoTIFF conversion validation
succeeds exactly when the projection is in {Geographic, UTM, Albers,
Polar-Stereographic} and the datum is WGS84 (in particular Geographic
with WGS84 is accepted there); the LPGS MTL reader however accepts only
the MAP_PROJECTION tokens UTM, PS and AEA (Geographic is rejected at
parse time) and only the WGS84 datum. -/
theorem c3_proj_datum_validation (p d : Int) (v w : String) :
    (gtifProjDatumCheck p d = .ok () ↔
      ((p = GCTP_GEO_PROJ ∨ p = GCTP_UTM_PROJ ∨ p = GCTP_ALBERS_PROJ
         ∨ p = GCTP_PS_PROJ) ∧ d = ESPA_WGS84)) ∧
    ((∃ q, parseMapProjection v = .ok q) ↔ (v = "UTM" ∨ v = "PS" ∨ v = "AEA")) ∧
    ((∃ q, parseDatum w = .ok q) ↔ w = "WGS84") := by
  refine ⟨?_, ?_, ?_⟩
  · unfold gtifProjDatumCheck
    split_ifs with h1 h2 <;> simp_all
    tauto
  · unfold parseMapProjection
    split_ifs with h1 h2 h3 <;> simp_all
  · unfold parseDatum
    split_ifs with h1 <;> simp_all

/-- Claim C2: a BAND_n FILE_NAME record (optionally with a VCID suffix)
gets thermal = true exactly when the band number is 6 and the instrument
is TM, or the band number is 6 with a non-zero VCID suffix, or the band
number exceeds 9; quality and angle FILE_NAME records always get
thermal = false. -/
theorem c2_thermal_flag (instrument id fname : String) (bnum vcid : Int)
    (h : scanBandId id = some (bnum, vcid)) :
    (∃ b, classifyFileName instrument id fname = some b ∧
      (b.thermal = true ↔
        ((bnum = 6 ∧ (instrument = "TM" ∨ vcid ≠ 0)) ∨ bnum > 9))) ∧
    (∀ qid ∈ (["QUALITY_L1_PIXEL", "QUALITY_L1_RADIOMETRIC_SATURATION",
               "ANGLE_SENSOR_AZIMUTH_BAND_4", "ANGLE_SENSOR_ZENITH_BAND_4",
               "ANGLE_SOLAR_AZIMUTH_BAND_4",
               "ANGLE_SOLAR_ZENITH_BAND_4"] : List String),
      ∃ b, classifyFileName instrument qid fname = some b ∧ b.thermal = false) := by
  constructor
  · unfold classifyFileName
    rw [h]
    refine ⟨_, rfl, ?_⟩
    simp only [Bool.or_eq_true, Bool.and_eq_true, beq_iff_eq, Bool.not_eq_true',
               beq_eq_false_iff_ne, decide_eq_true_eq]
  · intro qid hq
    simp only [List.mem_cons, List.not_mem_nil, or_false] at hq
    rcases hq with rfl | rfl | rfl | rfl | rfl | rfl <;> exact ⟨_, rfl, rfl⟩

/-- Claim C2 witness: OLI band 10 is thermal; band 8 is not; ETM+ band 6
with VCID 2 is thermal; the pixel-QA band is not thermal. -/
theorem c2_thermal_flag_witness :
    scanBandId "BAND_10" = some (10, 0) ∧
    (∃ b, classifyFileName "OLI_TIRS" "BAND_10" "f.tif" = some b ∧
      (b.thermal = true ↔
        (((10 : Int) = 6 ∧ ("OLI_TIRS" = "TM" ∨ (0 : Int) ≠ 0)) ∨ (10 : Int) > 9))) ∧
    scanBandId "BAND_6_VCID_2" = some (6, 2) ∧
    (∃ b, classifyFileName "ETM" "BAND_6_VCID_2" "f.tif" = some b ∧
      (b.thermal = true ↔
        (((6 : Int) = 6 ∧ ("ETM" = "TM" ∨ (2 : Int) ≠ 0)) ∨ (6 : Int) > 9))) ∧
    (∃ b, classifyFileName "OLI_TIRS" "QUALITY_L1_PIXEL" "f.tif" = some b ∧
      b.thermal = false) :=
  ⟨by decide,
   (c2_thermal_flag "OLI_TIRS" "BAND_10" "f.tif" 10 0 (by decide)).1,
   by decide,
   (c2_thermal_flag "ETM" "BAND_6_VCID_2" "f.tif" 6 2 (by decide)).1,
   (c2_thermal_flag "OLI_TIRS" "BAND_10" "f.tif" 10 0 (by decide)).2
     "QUALITY_L1_PIXEL" (by decide)⟩

/-- Claim C1: both quality FILE_NAME records (QUALITY_L1_PIXEL and
QUALITY_L1_RADIOMETRIC_SATURATION) classify as qa-category bands whose
band names select a 16-entry bit-flag table; the pixel-QA entries at
bits 14-15 and the radiometric-saturation entries at bits 8-11 follow
the OLI wording when the instrument name starts with "OLI" and the
TM/ETM+ wording otherwise. -/
theorem c1_quality_bitflag_tables (instrument fname : String) :
    (∃ b, classifyFileName instrument "QUALITY_L1_PIXEL" fname = some b ∧
       b.category = "qa" ∧ b.band_num = "bqa_pixel") ∧
    (∃ b, classifyFileName instrument "QUALITY_L1_RADIOMETRIC_SATURATION" fname
            = some b ∧ b.category = "qa" ∧ b.band_num = "bqa_radsat") ∧
    (∃ l, bandBitmap instrument "bqa_pixel" = some l ∧ l.length = 16 ∧
       (if strStarts "OLI" instrument
        then l[14]? = some "Cirrus Confidence" ∧ l[15]? = some "Cirrus Confidence"
        else l[14]? = some "Not used" ∧ l[15]? = some "Not used")) ∧
    (∃ l, bandBitmap instrument "bqa_radsat" = some l ∧ l.length = 16 ∧
       (if strStarts "OLI" instrument
        then l[8]? = some "Band 9 Saturation" ∧ l[9]? = some "Band 10 Saturation" ∧
             l[10]? = some "Band 11 Saturation" ∧ l[11]? = some "Terrain Occlusion"
        else l[8]? = some "Band 6H Saturation" ∧ l[9]? = some "Dropped Pixel" ∧
             l[10]? = some "Not used" ∧ l[11]? = some "Not used")) := by
  refine ⟨⟨_, rfl, rfl, rfl⟩, ⟨_, rfl, rfl, rfl⟩, ?_, ?_⟩
  · refine ⟨pixelQaDescriptions instrument, ?_, ?_, ?_⟩
    · unfold bandBitmap
      rw [if_pos (by decide), if_neg (by decide), if_pos rfl]
    · by_cases h : strStarts "OLI" instrument <;> simp [pixelQaDescriptions, h]
    · by_cases h : strStarts "OLI" instrument <;> simp [pixelQaDescriptions, h]
  · refine ⟨radsatQaDescriptions instrument, ?_, ?_, ?_⟩
    · unfold bandBitmap
      rw [if_pos (by decide), if_neg (by decide), if_neg (by decide), if_pos rfl]
    · by_cases h : strStarts "OLI" instrument <;> simp [radsatQaDescriptions, h]
    · by_cases h : strStarts "OLI" instrument <;>
        simp [radsatQaDescriptions, h, List.range_succ]

/-! ## Field-merge lemmas (for the not-found and order-insensitivity claim) -/

theorem applyField_id (b : BandInfo) (f : FieldKind) :
    (applyField b f).id = b.id := by
  cases f <;> rfl

theorem applyField_comm (b : BandInfo) (f1 f2 : FieldKind)
    (h : fieldSlot f1 ≠ fieldSlot f2) :
    applyField (applyField b f1) f2 = applyField (applyField b f2) f1 := by
  cases f1 <;> cases f2 <;> first | rfl | simp [fieldSlot] at h

theorem updateBand_cons (b : BandInfo) (rest : List BandInfo) (id : String)
    (g : BandInfo → BandInfo) :
    updateBand (b :: rest) id g
      = if b.id = "" then b :: rest
        else if b.id = id then g b :: rest
        else b :: updateBand rest id g := rfl

theorem get_band_info_cons (b : BandInfo) (rest : List BandInfo) (id : String) :
    get_band_info (b :: rest) id
      = if b.id = "" then none
        else if b.id = id then some b
        else get_band_info rest id := rfl

/-- The get_band_info scan fails exactly when the identifier matches none
of the slots before the first empty identifier (that prefix holds the
created bands plus, possibly, the stale identifier of the most recent
skipped FILE_NAME record). -/
theorem get_band_info_none_iff (arr : List BandInfo) (id : String) :
    get_band_info arr id = none
      ↔ ∀ b ∈ arr.takeWhile (fun b => !(b.id == "")), b.id ≠ id := by
  induction arr with
  | nil => simp [get_band_info]
  | cons b rest ih =>
    by_cases he : b.id = ""
    · simp [get_band_info_cons, List.takeWhile_cons, he]
    · by_cases hb : b.id = id
      · rw [get_band_info_cons, if_neg he, if_pos hb]
        constructor
        · intro h
          cases h
        · intro hall
          exact absurd hb (hall b (by simp [List.takeWhile_cons, he]))
      · simp [get_band_info_cons, List.takeWhile_cons, he, hb, ih]

theorem updateBand_comm_ne (cat : List BandInfo) (id1 id2 : String)
    (g1 g2 : BandInfo → BandInfo) (hg1 : ∀ b, (g1 b).id = b.id)
    (hg2 : ∀ b, (g2 b).id = b.id) (hne : id1 ≠ id2) :
    updateBand (updateBand cat id1 g1) id2 g2
      = updateBand (updateBand cat id2 g2) id1 g1 := by
  induction cat with
  | nil => rfl
  | cons b rest ih =>
    by_cases he : b.id = ""
    · simp [updateBand_cons, he]
    · by_cases h1 : b.id = id1 <;> by_cases h2 : b.id = id2
      · exact absurd (h1 ▸ h2) hne
      · have he1 : id1 ≠ "" := h1 ▸ he
        simp [updateBand_cons, hg1, hg2, he, he1, h1, h2, hne, Ne.symm hne]
      · have he2 : id2 ≠ "" := h2 ▸ he
        simp [updateBand_cons, hg1, hg2, he, he2, h1, h2, hne, Ne.symm hne]
      · simp [updateBand_cons, he, h1, h2, ih]

theorem updateBand_updateBand_same (cat : List BandInfo) (id : String)
    (g1 g2 : BandInfo → BandInfo) (hg1 : ∀ b, (g1 b).id = b.id) :
    updateBand (updateBand cat id g1) id g2
      = updateBand cat id (fun b => g2 (g1 b)) := by
  induction cat with
  | nil => rfl
  | cons b rest ih =>
    by_cases he : b.id = ""
    · simp [updateBand_cons, he]
    · by_cases h1 : b.id = id
      · have heid : id ≠ "" := h1 ▸ he
        simp [updateBand_cons, he, heid, h1, hg1]
      · simp [updateBand_cons, he, h1, ih]

/-- Claim C6 counterexample: the FILE_NAME handler writes the identifier
into the scratch slot before classifying, so a skipped file type (here
METADATA_ODL, which creates no band: classifyFileName is none and the
band count stays 0) leaves a stale non-empty identifier that the
get_band_info scan finds; the following DATA_TYPE field record for that
never-created identifier then merges silently into the stale slot
instead of failing with the not-found error. -/
theorem c6_stale_id_counterexample :
    classifyFileName "" "METADATA_ODL" "x.odl" = none ∧
    processRecord {} ⟨"PRODUCT_CONTENTS", "FILE_NAME_METADATA_ODL", "x.odl"⟩
      = .ok { band_info := [{ id := "METADATA_ODL" }], band_count := 0 } ∧
    processRecord { band_info := [{ id := "METADATA_ODL" }], band_count := 0 }
        ⟨"PRODUCT_CONTENTS", "DATA_TYPE_METADATA_ODL", "UINT16"⟩
      = .ok { band_info := [{ id := "METADATA_ODL",
                              data_type := some EspaDataType.uint16 }],
              band_count := 0 } :=
  ⟨rfl, rfl, rfl⟩

/-- Claim C6 (amended): a field record fails with the not-found error
exactly when its identifier matches none of the slots the get_band_info
scan visits - the created bands plus, when the most recent FILE_NAME
record was skipped, its stale identifier; a field record matching a
visited slot (a stale one included) merges without error; and when the
identifiers do exist, merging two field records that write different
slots (different identifier or different field) gives the same catalog
in either order. -/
theorem c6_field_merge :
    (∀ (arr : List BandInfo) (id : String) (f : FieldKind),
      (∀ b ∈ arr.takeWhile (fun b => !(b.id == "")), b.id ≠ id) →
      processField arr id f
        = .error ("Band info not found for ID " ++ id ++ ".")) ∧
    (∀ (arr : List BandInfo) (id : String) (f : FieldKind),
      id ∈ (arr.takeWhile (fun b => !(b.id == ""))).map (fun b => b.id) →
      ∃ arr2, processField arr id f = .ok arr2) ∧
    (∀ (cat cat1 cat12 cat2 cat21 : List BandInfo) (id1 id2 : String)
       (f1 f2 : FieldKind),
      (id1 ≠ id2 ∨ fieldSlot f1 ≠ fieldSlot f2) →
      processField cat id1 f1 = .ok cat1 → processField cat1 id2 f2 = .ok cat12 →
      processField cat id2 f2 = .ok cat2 → processField cat2 id1 f1 = .ok cat21 →
      cat12 = cat21) := by
  refine ⟨?_, ?_, ?_⟩
  · intro arr id f h
    have hnone : get_band_info arr id = none := (get_band_info_none_iff arr id).mpr h
    unfold processField
    rw [hnone]
  · intro arr id f h
    have hne : ¬ get_band_info arr id = none := by
      rw [get_band_info_none_iff]
      simp only [List.mem_map] at h
      obtain ⟨b, hb, hid⟩ := h
      intro hall
      exact hall b hb hid
    rcases hg : get_band_info arr id with _ | b
    · exact absurd hg hne
    · refine ⟨updateBand arr id (fun b => applyField b f), ?_⟩
      unfold processField
      rw [hg]
  · intro cat cat1 cat12 cat2 cat21 id1 id2 f1 f2 hd p1 p12 p2 p21
    unfold processField at p1 p12 p2 p21
    rcases hg1 : get_band_info cat id1 with _ | b1 <;> rw [hg1] at p1
    · cases p1
    rcases hg2 : get_band_info cat id2 with _ | b2 <;> rw [hg2] at p2
    · cases p2
    injection p1 with p1
    injection p2 with p2
    subst p1
    subst p2
    rcases hg12 : get_band_info (updateBand cat id1 fun b => applyField b f1) id2
        with _ | c1 <;> rw [hg12] at p12
    · cases p12
    rcases hg21 : get_band_info (updateBand cat id2 fun b => applyField b f2) id1
        with _ | c2 <;> rw [hg21] at p21
    · cases p21
    injection p12 with p12
    injection p21 with p21
    subst p12
    subst p21
    by_cases hid : id1 = id2
    · subst hid
      have hs : fieldSlot f1 ≠ fieldSlot f2 := by tauto
      rw [updateBand_updateBand_same _ _ _ _ (fun b => applyField_id b f1),
          updateBand_updateBand_same _ _ _ _ (fun b => applyField_id b f2)]
      congr 1
      funext b
      exact applyField_comm b f1 f2 hs
    · exact updateBand_comm_ne cat id1 id2 _ _ (fun b => applyField_id b f1)
        (fun b => applyField_id b f2) hid

/-- Claim C6 witness: a DATA_TYPE record for BAND_2 against an array
holding only BAND_1 fails with the not-found error; one for the stale
identifier METADATA_ODL merges without error; and merging the data
types of BAND_1 and BAND_2 commutes on a two-band array. -/
theorem c6_field_merge_witness :
    processField [{ id := "BAND_1" }] "BAND_2" (.dataType .uint8)
      = .error ("Band info not found for ID " ++ "BAND_2" ++ ".") ∧
    (∃ arr2, processField [{ id := "METADATA_ODL" }] "METADATA_ODL"
        (.dataType .uint16) = .ok arr2) ∧
    updateBand (updateBand [{ id := "BAND_1" }, { id := "BAND_2" }] "BAND_1"
        (fun b => applyField b (.dataType .uint8))) "BAND_2"
        (fun b => applyField b (.dataType .int16))
      = updateBand (updateBand [{ id := "BAND_1" }, { id := "BAND_2" }] "BAND_2"
        (fun b => applyField b (.dataType .int16))) "BAND_1"
        (fun b => applyField b (.dataType .uint8)) :=
  ⟨c6_field_merge.1 [{ id := "BAND_1" }] "BAND_2" (.dataType .uint8)
     (by intro b hb; simp at hb; subst hb; decide),
   c6_field_merge.2.1 [{ id := "METADATA_ODL" }] "METADATA_ODL"
     (.dataType .uint16) (by decide),
   c6_field_merge.2.2 [{ id := "BAND_1" }, { id := "BAND_2" }] _ _ _ _
     "BAND_1" "BAND_2" (.dataType .uint8) (.dataType .int16)
     (Or.inl (by decide)) rfl rfl rfl rfl⟩


/-- Claim C8: read_lpgs_mtl fails fatally for any satellite, projection,
datum, resample-method, or element-type value outside its closed
enumeration, and for any instrument outside the satellite pairing table;
an error in any record aborts the whole scan immediately, and since the
result is then the bare error value, no partial metadata is returned to
the caller. -/
theorem c8_closed_enumerations :
    (∀ (s : MtlState) (v : String),
      v ∉ (["LANDSAT_9", "Landsat9", "LANDSAT_8", "Landsat8", "LANDSAT_7",
            "Landsat7", "LANDSAT_5", "Landsat5", "LANDSAT_4",
            "Landsat4"] : List String) →
      processRecord s ⟨"IMAGE_ATTRIBUTES", "SPACECRAFT_ID", v⟩
        = .error ("Unsupported satellite type: " ++ v)) ∧
    (∀ (s : MtlState) (v : String), v ∉ (["UTM", "PS", "AEA"] : List String) →
      processRecord s ⟨"PROJECTION_ATTRIBUTES", "MAP_PROJECTION", v⟩
        = .error ("Unsupported projection type: " ++ v ++ ". Only UTM, PS, and "
                  ++ "ALBERS EQUAL AREA are supported for LPGS.")) ∧
    (∀ (s : MtlState) (v : String), v ≠ "WGS84" →
      processRecord s ⟨"PROJECTION_ATTRIBUTES", "DATUM", v⟩
        = .error ("Unexpected datum type: " ++ v)) ∧
    (∀ (s : MtlState) (v : String),
      v ∉ (["CUBIC_CONVOLUTION", "NEAREST_NEIGHBOR", "BILINEAR"] : List String) →
      processRecord s ⟨"LEVEL1_PROJECTION_PARAMETERS", "RESAMPLING_OPTION", v⟩
        = .error ("Unsupported resampling option: " ++ v)) ∧
    (∀ (s : MtlState) (id v : String),
      v ∉ (["INT8", "UINT8", "INT16", "UINT16", "INT32", "UINT32", "FLOAT32",
            "FLOAT64"] : List String) →
      ∃ e, processFieldRecord s id ((parseDataTypeTok v).map .dataType)
             ("Unsupported data type " ++ v ++ ".") = .error e) ∧
    (∀ s : MtlState,
      s.instrument ∉ (["OLI_TIRS", "OLI", "TIRS", "ETM", "TM"] : List String) →
      ∃ e, validateSensor s = .error e) ∧
    (∀ (s : MtlState) (r : MtlRecord) (rs : List MtlRecord) (e : String),
      processRecord s r = .error e → runMtlRecords s (r :: rs) = .error e) := by
  refine ⟨?_, ?_, ?_, ?_, ?_, ?_, ?_⟩
  · intro s v h
    simp only [List.mem_cons, List.not_mem_nil, or_false, not_or] at h
    obtain ⟨h1, h2, h3, h4, h5, h6, h7, h8, h9, h10⟩ := h
    simp [processRecord, h1, h2, h3, h4, h5, h6, h7, h8, h9, h10]
  · intro s v h
    simp only [List.mem_cons, List.not_mem_nil, or_false, not_or] at h
    obtain ⟨h1, h2, h3⟩ := h
    simp [processRecord, parseMapProjection, h1, h2, h3]
  · intro s v h
    simp [processRecord, parseDatum, h]
  · intro s v h
    simp only [List.mem_cons, List.not_mem_nil, or_false, not_or] at h
    obtain ⟨h1, h2, h3⟩ := h
    simp [processRecord, h1, h2, h3]
  · intro s id v h
    simp only [List.mem_cons, List.not_mem_nil, or_false, not_or] at h
    obtain ⟨h1, h2, h3, h4, h5, h6, h7, h8⟩ := h
    have hp : parseDataTypeTok v = none := by
      simp [parseDataTypeTok, h1, h2, h3, h4, h5, h6, h7, h8]
    unfold processFieldRecord
    rcases hg : get_band_info s.band_info id with _ | b
    · exact ⟨_, rfl⟩
    · rw [hp]
      exact ⟨_, rfl⟩
  · intro s h
    simp only [List.mem_cons, List.not_mem_nil, or_false, not_or] at h
    obtain ⟨h1, h2, h3, h4, h5⟩ := h
    unfold validateSensor
    split_ifs with a1 a2 a3 <;> first | exact ⟨_, rfl⟩ | tauto
  · intro s r rs e h
    unfold runMtlRecords
    rw [List.foldlM_cons, h]
    rfl

/-- Claim C8 witness: an unknown spacecraft token, a Geographic projection
token, a NAD83 datum, an unknown resampling option, an INT64 data type
and a MSS instrument all fail fatally, and the error aborts the scan of
the remaining records. -/
theorem c8_closed_enumerations_witness :
    processRecord {} ⟨"IMAGE_ATTRIBUTES", "SPACECRAFT_ID", "SENTINEL_2"⟩
      = .error ("Unsupported satellite type: " ++ "SENTINEL_2") ∧
    processRecord {} ⟨"PROJECTION_ATTRIBUTES", "DATUM", "NAD83"⟩
      = .error ("Unexpected datum type: " ++ "NAD83") ∧
    (∃ e, processFieldRecord {} "BAND_1" ((parseDataTypeTok "INT64").map .dataType)
            ("Unsupported data type " ++ "INT64" ++ ".") = .error e) ∧
    (∃ e, validateSensor { satellite := "LANDSAT_5", instrument := "MSS" }
            = .error e) ∧
    runMtlRecords {} [⟨"IMAGE_ATTRIBUTES", "SPACECRAFT_ID", "SENTINEL_2"⟩,
                      ⟨"IMAGE_ATTRIBUTES", "SENSOR_ID", "OLI"⟩]
      = .error ("Unsupported satellite type: " ++ "SENTINEL_2") :=
  ⟨(c8_closed_enumerations.1 {} "SENTINEL_2" (by decide)),
   (c8_closed_enumerations.2.2.1 {} "NAD83" (by decide)),
   (c8_closed_enumerations.2.2.2.2.1 {} "BAND_1" "INT64" (by decide)),
   (c8_closed_enumerations.2.2.2.2.2.1
      { satellite := "LANDSAT_5", instrument := "MSS" } (by decide)),
   (c8_closed_enumerations.2.2.2.2.2.2 {}
      ⟨"IMAGE_ATTRIBUTES", "SPACECRAFT_ID", "SENTINEL_2"⟩
      [⟨"IMAGE_ATTRIBUTES", "SENSOR_ID", "OLI"⟩] _
      (c8_closed_enumerations.1 {} "SENTINEL_2" (by decide)))⟩

/-! ## Filtering-loop lemmas (for the band-subset claim) -/

theorem srFilterGo_spec (exclude : List String) (pending : List EspaBand) :
    ∀ (kept junk : List EspaBand) (n : Nat),
      n = kept.length + junk.length + pending.length →
      ∃ junk2 : List EspaBand,
        srFilterGo exclude n (kept.length + junk.length) kept.length
            (kept ++ pending ++ junk) (kept.length + pending.length)
          = (kept ++ pending.filter (fun b => !bandExcluded exclude b) ++ junk2,
             kept.length + (pending.filter (fun b => !bandExcluded exclude b)).length,
             pending.map (fun b => !bandExcluded exclude b)) := by
  induction pending with
  | nil =>
    intro kept junk n hn
    simp only [List.length_nil] at hn
    refine ⟨junk, ?_⟩
    unfold srFilterGo
    rw [dif_neg (by omega)]
    simp
  | cons b rest ih =>
    intro kept junk n hn
    simp only [List.length_cons] at hn
    have hi : kept.length + junk.length < n := by omega
    have hget : ((kept ++ (b :: rest) ++ junk).getD kept.length default) = b := by
      rw [List.append_assoc, List.cons_append]
      exact getDAppendLen kept b (rest ++ junk) default
    unfold srFilterGo
    rw [dif_pos hi, hget]
    have harr' : (if kept.length + junk.length < n - 1
        then listMemmove (kept ++ (b :: rest) ++ junk) kept.length
             (n - (kept.length + junk.length) - 1)
        else kept ++ (b :: rest) ++ junk)
      = kept ++ rest ++ ((b :: (rest ++ junk)).drop rest.length) := by
      rcases rest with _ | ⟨c, rest'⟩
      · rw [if_neg (by simp only [List.length_nil] at hn; omega)]
        simp
      · rw [if_pos (by simp only [List.length_cons] at hn; omega)]
        unfold listMemmove
        rw [show kept ++ (b :: (c :: rest')) ++ junk
              = kept ++ (b :: ((c :: rest') ++ junk)) by simp]
        rw [show n - (kept.length + junk.length) - 1 = (c :: rest').length from
              by simp only [List.length_cons] at hn ⊢; omega]
        rw [takeAppend kept (b :: ((c :: rest') ++ junk)),
            dropAppendPlus kept (b :: ((c :: rest') ++ junk)) 1,
            dropAppendPlus kept (b :: ((c :: rest') ++ junk)) (c :: rest').length]
        simp only [List.drop_succ_cons, List.drop_zero]
        rw [takeAppend (c :: rest') junk]
    rw [harr']
    have hjl : ((b :: (rest ++ junk)).drop rest.length).length = junk.length + 1 := by
      simp only [List.length_drop, List.length_cons, List.length_append]
      omega
    by_cases hb : bandExcluded exclude b
    · rw [if_pos hb]
      rw [show kept.length + junk.length + 1
            = kept.length + ((b :: (rest ++ junk)).drop rest.length).length from
            by omega]
      rw [show kept.length + (b :: rest).length - 1 = kept.length + rest.length from
            by simp only [List.length_cons]; omega]
      obtain ⟨junk2, hrec⟩ :=
        ih kept ((b :: (rest ++ junk)).drop rest.length) n (by omega)
      rw [hrec]
      refine ⟨junk2, ?_⟩
      simp [consFlag, List.filter_cons, hb]
    · rw [if_neg hb]
      rw [show kept.length + junk.length + 1 = (kept ++ [b]).length + junk.length
            from by simp only [List.length_append, List.length_cons,
                               List.length_nil]; omega]
      rw [show kept.length + 1 = (kept ++ [b]).length from by simp]
      rw [show kept ++ (b :: rest) ++ junk = (kept ++ [b]) ++ rest ++ junk from
            by simp]
      rw [show kept.length + (b :: rest).length
            = (kept ++ [b]).length + rest.length from
            by simp only [List.length_append, List.length_cons,
                          List.length_nil]; omega]
      obtain ⟨junk2, hrec⟩ := ih (kept ++ [b]) junk n
        (by simp only [List.length_append, List.length_cons,
                       List.length_nil]; omega)
      rw [hrec]
      refine ⟨junk2, ?_⟩
      simp [consFlag, List.filter_cons, hb, List.append_assoc]
      omega

theorem conversionPairs_cons_true (fs : List Bool) (l : String)
    (ls : List String) (b : EspaBand) (bs : List EspaBand) :
    conversionPairs (true :: fs) (l :: ls) (b :: bs)
      = (l, b) :: conversionPairs fs ls bs := rfl

theorem conversionPairs_cons_false (fs : List Bool) (l : String)
    (ls : List String) (bs : List EspaBand) :
    conversionPairs (false :: fs) (l :: ls) bs = conversionPairs fs ls bs := rfl

theorem conversionPairs_spec (keep : EspaBand → Bool) (orig : List EspaBand) :
    ∀ (lpgs : List String) (extra : List EspaBand),
      lpgs.length = orig.length →
      conversionPairs (orig.map keep) lpgs (orig.filter keep ++ extra)
        = (lpgs.zip orig).filter (fun p => keep p.2) := by
  induction orig with
  | nil =>
    intro lpgs extra h
    rcases lpgs with _ | ⟨l, ls⟩
    · rfl
    · simp at h
  | cons o os ih =>
    intro lpgs extra h
    rcases lpgs with _ | ⟨l, ls⟩
    · simp at h
    · simp only [List.length_cons] at h
      have h2 : ls.length = os.length := by omega
      rcases hk : keep o with _ | _
      · simp [List.filter_cons, List.zip_cons_cons, hk,
              conversionPairs_cons_false, ih ls extra h2]
      · simp [List.filter_cons, List.zip_cons_cons, hk,
              conversionPairs_cons_true, ih ls extra h2]

/-- Claim C5: with band-subset filtering requested, the filtering loop
removes exactly the bands whose names are in the fixed exclusion list,
keeps the remaining bands in their relative order as the first nbands
entries of the compacted array, decrements the band count once per
removal, and the conversion loop still pairs each remaining band with
its original LPGS source-file name. -/
theorem c5_band_subset_filtering (bands : List EspaBand) (lpgs : List String)
    (h : lpgs.length = bands.length) :
    (srFilter excludeBands bands).1.take (srFilter excludeBands bands).2.1
        = bands.filter (fun b => !bandExcluded excludeBands b) ∧
    (srFilter excludeBands bands).2.1
        = (bands.filter (fun b => !bandExcluded excludeBands b)).length ∧
    conversionPairs (srFilter excludeBands bands).2.2 lpgs
        (srFilter excludeBands bands).1
      = (lpgs.zip bands).filter (fun p => !bandExcluded excludeBands p.2) := by
  obtain ⟨junk2, hrun⟩ := srFilterGo_spec excludeBands bands [] [] bands.length
    (by simp)
  simp only [List.length_nil, List.nil_append, List.append_nil, Nat.add_zero,
             Nat.zero_add] at hrun
  have hsf : srFilter excludeBands bands
      = (bands.filter (fun b => !bandExcluded excludeBands b) ++ junk2,
         (bands.filter (fun b => !bandExcluded excludeBands b)).length,
         bands.map (fun b => !bandExcluded excludeBands b)) := by
    unfold srFilter
    exact hrun
  rw [hsf]
  refine ⟨?_, rfl, ?_⟩
  · exact takeAppend _ junk2
  · exact conversionPairs_spec _ bands lpgs junk2 h

/-- Claim C5 witness: on a three-band product where only b8 is excluded,
the kept bands b1 and b2 stay in order, the band count drops to 2, and
each kept band is still paired with its own source file. -/
theorem c5_band_subset_filtering_witness :
    (["L1", "L8", "L2"] : List String).length
        = ([⟨"b1", "f1"⟩, ⟨"b8", "f8"⟩, ⟨"b2", "f2"⟩] : List EspaBand).length ∧
    ((srFilter excludeBands [⟨"b1", "f1"⟩, ⟨"b8", "f8"⟩, ⟨"b2", "f2"⟩]).1.take
        (srFilter excludeBands [⟨"b1", "f1"⟩, ⟨"b8", "f8"⟩, ⟨"b2", "f2"⟩]).2.1
      = List.filter (fun b => !bandExcluded excludeBands b)
          [⟨"b1", "f1"⟩, ⟨"b8", "f8"⟩, ⟨"b2", "f2"⟩] ∧
     (srFilter excludeBands [⟨"b1", "f1"⟩, ⟨"b8", "f8"⟩, ⟨"b2", "f2"⟩]).2.1
      = (List.filter (fun b => !bandExcluded excludeBands b)
          [⟨"b1", "f1"⟩, ⟨"b8", "f8"⟩, ⟨"b2", "f2"⟩]).length ∧
     conversionPairs
        (srFilter excludeBands [⟨"b1", "f1"⟩, ⟨"b8", "f8"⟩, ⟨"b2", "f2"⟩]).2.2
        ["L1", "L8", "L2"]
        (srFilter excludeBands [⟨"b1", "f1"⟩, ⟨"b8", "f8"⟩, ⟨"b2", "f2"⟩]).1
      = List.filter (fun p => !bandExcluded excludeBands p.2)
          (List.zip ["L1", "L8", "L2"] [⟨"b1", "f1"⟩, ⟨"b8", "f8"⟩, ⟨"b2", "f2"⟩])) :=
  ⟨rfl, c5_band_subset_filtering [⟨"b1", "f1"⟩, ⟨"b8", "f8"⟩, ⟨"b2", "f2"⟩]
     ["L1", "L8", "L2"] rfl⟩
